import Mathlib

/-!
Shallow embedding of the `Script` reflection module (js-reflection).

The repository implements a lazy single-flight script loader with typed
member resolution and invocation.  We embed:

* a model of JavaScript runtime values (`JsValue`) with JS truthiness;
* the member classifiers `isClass` / `isFunction` from `src/load/helpers.js`;
* the resolution and invocation methods of the `Script` class
  (`getObject`, `getObjectProperty`, `getNestedObjectProperty`,
  `getFunction`, `getClass`, `callNew`, `safeCallNew`, `callFunction`,
  `safeCallFunction`, `callObjectMethod`, `safeCallObjectMethod`),
  translated line by line from `src/load/helpers.js` for the state in
  which the script is already loaded;
* an event-loop model of the async `loadedScript` method, for both the
  `src/load` variant (waiters register a listener for the `load` event)
  and the `src/lib/path` variant (whose already-loading branch defines a
  wait helper but never awaits it and falls through to a second import).
-/

set_option autoImplicit false

mutual

/-- Model of a JavaScript runtime value, as far as the reflection module
observes them.  Functions carry their source text (what
`Function.prototype.toString` returns), their declared parameter count
(`Function.length`) and an opaque body identifier interpreted by an
external call semantics. -/
inductive JsValue where
  | vNum (n : Int)
  | vStr (s : String)
  | vBool (b : Bool)
  | vNull
  | vUndefined
  | vArr (elems : JsList)
  | vObj (props : JsProps)
  | vFunc (source : String) (length : Nat) (body : Nat)
  deriving DecidableEq, Repr

/-- A list of JavaScript values (an array literal's contents). -/
inductive JsList where
  | nil
  | cons (hd : JsValue) (tl : JsList)
  deriving DecidableEq, Repr

/-- The own properties of a JavaScript object, in insertion order. -/
inductive JsProps where
  | nil
  | cons (key : String) (val : JsValue) (tl : JsProps)
  deriving DecidableEq, Repr

end

/-- Convert a Lean list of values into a `JsList`. -/
def JsList.ofList : List JsValue → JsList
  | [] => .nil
  | v :: rest => .cons v (JsList.ofList rest)

/-- First element of a JS array, `undefined` when empty (what a
one-parameter constructor binds when called with no arguments). -/
def JsList.headOrUndefined : JsList → JsValue
  | .nil => .vUndefined
  | .cons v _ => v

/-- Number of elements (`Array.length` / argument count). -/
def JsList.length : JsList → Nat
  | .nil => 0
  | .cons _ tl => tl.length + 1

/-- JS truthiness: `0`, `""`, `false`, `null` and `undefined` are falsy;
objects, arrays and functions are always truthy. -/
def truthy : JsValue → Bool
  | .vNum n => n ≠ 0
  | .vStr s => s ≠ ""
  | .vBool b => b
  | .vNull => false
  | .vUndefined => false
  | .vArr _ => true
  | .vObj _ => true
  | .vFunc _ _ _ => true

/-- Property lookup on an object's property list; an absent key yields
`undefined`, as in JavaScript. -/
def JsProps.lookup : JsProps → String → JsValue
  | .nil, _ => .vUndefined
  | .cons k v rest, key => if k = key then v else rest.lookup key

/-- Whether the property list carries the key at all (present even when
the stored value is falsy). -/
def JsProps.hasKey : JsProps → String → Bool
  | .nil, _ => false
  | .cons k _ rest, key => if k = key then true else rest.hasKey key

/-- Model of `v[key]` for an arbitrary value: objects look the key up; every
other value yields `undefined` for the keys this module walks. -/
def jsGet : JsValue → String → JsValue
  | .vObj props, key => props.lookup key
  | _, _ => .vUndefined

/-- A character the JavaScript regex class `\s` matches (the ASCII
whitespace forms; the Unicode additions are irrelevant to the sources
stored here). -/
def isJsWhitespace (c : Char) : Bool :=
  c = ' ' || c = '\t' || c = '\n' || c = '\r' || c = '\x0b' || c = '\x0c'

/-- The test `/^class\s/.test(s)`: the string starts with the five
letters `class` followed by one whitespace character. -/
def classSourceTest (s : String) : Bool :=
  match s.data with
  | 'c' :: 'l' :: 'a' :: 's' :: 's' :: w :: _ => isJsWhitespace w
  | _ => false

/-- From `src/load/helpers.js` — `isClass`: `typeof obj === 'function'` and
the source text matches `/^class\s/`. -/
def isClass : JsValue → Bool
  | .vFunc source _ _ => classSourceTest source
  | _ => false

/-- From `src/load/helpers.js` — `isFunction`: `typeof obj === 'function'`. -/
def isFunction : JsValue → Bool
  | .vFunc _ _ _ => true
  | _ => false

/-- The error conditions the `Script` class raises, one constructor per
distinct `throw` site payload in `src/load/helpers.js`. -/
inductive JsError where
  | objectNotDefined
  | objectNotFound (objectName : String)
  | propertyNotFound (objectName : String) (propertyName : String)
  | notAFunction (name : String)
  | notAClass (name : String)
  | mismatchedParameters (name : String)
  deriving DecidableEq, Repr

/-- The message string each `throw new Error(...)` site builds, with the
exact concatenations of `src/load/helpers.js` (`scriptPath` is the
stringified script URL interpolated into every message). -/
def JsError.message (scriptPath : String) : JsError → String
  | .objectNotDefined => "Object not defined"
  | .objectNotFound o => "Object not found" ++ ": " ++ scriptPath ++ ", " ++ o
  | .propertyNotFound o p =>
      "Property not found" ++ ": " ++ scriptPath ++ ", " ++ o ++ "." ++ p
  | .notAFunction n => "Object is not a function" ++ ": " ++ scriptPath ++ ", " ++ n
  | .notAClass n => "Object is not a class" ++ ": " ++ scriptPath ++ ", " ++ n
  | .mismatchedParameters n =>
      "Mismatched number of parameters" ++ ": " ++ scriptPath ++ ", " ++ n

namespace Script

/-- Model of `getObject(objectName)` from `src/load/helpers.js`, in the state where
the script is already loaded (the `await this.loadedScript()` step
returns the cached namespace `script` without suspending): throw
`OBJECT_NOT_DEFINED_ERROR` when the name is falsy, throw
`OBJECT_NOT_FOUND_ERROR` when `script?.[objectName]` is falsy, else
return the member. -/
def getObject (script : JsProps) (objectName : String) : Except JsError JsValue :=
  if objectName = "" then .error .objectNotDefined
  else if truthy (script.lookup objectName) then .ok (script.lookup objectName)
  else .error (.objectNotFound objectName)

/-- Model of `getObjectProperty(objectName, propertyName)`: resolve the object,
read the property, throw `PROPERTY_NOT_FOUND_ERROR` when it is falsy. -/
def getObjectProperty (script : JsProps) (objectName propertyName : String) :
    Except JsError JsValue :=
  match getObject script objectName with
  | .error e => .error e
  | .ok object =>
      let property := jsGet object propertyName
      if truthy property then .ok property
      else .error (.propertyNotFound objectName propertyName)

/-- The `for (const propertyName of propertyNames)` loop of
`getNestedObjectProperty`: project each segment in turn off the current
value, throwing `PROPERTY_NOT_FOUND_ERROR` (which names the top-level
`objectName` and the failing segment) as soon as a segment reads back
falsy. -/
def nestedWalk (objectName : String) (object : JsValue) :
    List String → Except JsError JsValue
  | [] => .ok object
  | propertyName :: rest =>
      let property := jsGet object propertyName
      if truthy property then nestedWalk objectName property rest
      else .error (.propertyNotFound objectName propertyName)

/-- Model of `getNestedObjectProperty(objectName, ...propertyNames)`: resolve the
top-level object, then run the projection loop. -/
def getNestedObjectProperty (script : JsProps) (objectName : String)
    (propertyNames : List String) : Except JsError JsValue :=
  match getObject script objectName with
  | .error e => .error e
  | .ok object => nestedWalk objectName object propertyNames

/-- Model of `getFunction(functionName)`: resolve, then throw
`OBJECT_IS_NOT_A_FUNCTION_ERROR` unless `isFunction`. -/
def getFunction (script : JsProps) (functionName : String) : Except JsError JsValue :=
  match getObject script functionName with
  | .error e => .error e
  | .ok object =>
      if isFunction object then .ok object
      else .error (.notAFunction functionName)

/-- Model of `getClass(className)`: resolve, then throw
`OBJECT_IS_NOT_A_CLASS_ERROR` unless `isClass`. -/
def getClass (script : JsProps) (className : String) : Except JsError JsValue :=
  match getObject script className with
  | .error e => .error e
  | .ok object =>
      if isClass object then .ok object
      else .error (.notAClass className)

/-- Apply a callable value to an argument list under the external call
semantics `interp` (body identifier to behaviour), recording the call;
the second component is the list of calls the target actually
received.  Only reached on values that passed an `isFunction` /
`isClass` check. -/
def invoke (interp : Nat → JsList → JsValue) (f : JsValue) (args : JsList) :
    Except JsError JsValue × List (Nat × JsList) :=
  match f with
  | .vFunc _ _ body => (.ok (interp body args), [(body, args)])
  | _ => (.ok .vUndefined, [])

/-- Model of `callNew(className, ...parameters)`: fetch the class, then execute
`new Class(parameters)` — the constructor receives ONE argument, the
`parameters` array itself (the source does not spread it). -/
def callNew (interp : Nat → JsList → JsValue) (script : JsProps)
    (className : String) (parameters : JsList) :
    Except JsError JsValue × List (Nat × JsList) :=
  match getClass script className with
  | .error e => (.error e, [])
  | .ok cls => invoke interp cls (.cons (.vArr parameters) .nil)

/-- Model of `safeCallNew(className, ...parameters)`: fetch the class, throw
`MISMATCHED_NUMBER_OF_PARAMETERS_ERROR` when `Class.length !==
parameters.length`, else execute `new Class(parameters)` (again the
un-spread array). -/
def safeCallNew (interp : Nat → JsList → JsValue) (script : JsProps)
    (className : String) (parameters : JsList) :
    Except JsError JsValue × List (Nat × JsList) :=
  match getClass script className with
  | .error e => (.error e, [])
  | .ok cls =>
      match cls with
      | .vFunc src len body =>
          if len ≠ parameters.length then
            (.error (.mismatchedParameters className), [])
          else invoke interp (.vFunc src len body) (.cons (.vArr parameters) .nil)
      | _ => (.ok .vUndefined, [])

/-- Model of `callFunction(functionName, ...parameters)`: fetch the function and
execute `fn(...parameters)` (spread). -/
def callFunction (interp : Nat → JsList → JsValue) (script : JsProps)
    (functionName : String) (parameters : JsList) :
    Except JsError JsValue × List (Nat × JsList) :=
  match getFunction script functionName with
  | .error e => (.error e, [])
  | .ok fn => invoke interp fn parameters

/-- Model of `safeCallFunction(functionName, ...parameters)`: fetch the function,
throw `MISMATCHED_NUMBER_OF_PARAMETERS_ERROR` when `fn.length !==
parameters.length`, else execute `fn(...parameters)`. -/
def safeCallFunction (interp : Nat → JsList → JsValue) (script : JsProps)
    (functionName : String) (parameters : JsList) :
    Except JsError JsValue × List (Nat × JsList) :=
  match getFunction script functionName with
  | .error e => (.error e, [])
  | .ok fn =>
      match fn with
      | .vFunc src len body =>
          if len ≠ parameters.length then
            (.error (.mismatchedParameters functionName), [])
          else invoke interp (.vFunc src len body) parameters
      | _ => (.ok .vUndefined, [])

/-- Model of `callObjectMethod(objectName, methodName, ...parameters)`: project
the method off the object via `getObjectProperty`, throw
`OBJECT_IS_NOT_A_FUNCTION_ERROR` (whose message names
`objectName.methodName`) unless `isFunction`, else execute
`method(...parameters)`. -/
def callObjectMethod (interp : Nat → JsList → JsValue) (script : JsProps)
    (objectName methodName : String) (parameters : JsList) :
    Except JsError JsValue × List (Nat × JsList) :=
  match getObjectProperty script objectName methodName with
  | .error e => (.error e, [])
  | .ok method =>
      if isFunction method then invoke interp method parameters
      else (.error (.notAFunction (objectName ++ "." ++ methodName)), [])

/-- Model of `safeCallObjectMethod(objectName, methodName, ...parameters)`: like
`callObjectMethod` but additionally throw
`MISMATCHED_NUMBER_OF_PARAMETERS_ERROR` when `method.length !==
parameters.length`, before the call. -/
def safeCallObjectMethod (interp : Nat → JsList → JsValue) (script : JsProps)
    (objectName methodName : String) (parameters : JsList) :
    Except JsError JsValue × List (Nat × JsList) :=
  match getObjectProperty script objectName methodName with
  | .error e => (.error e, [])
  | .ok method =>
      match method with
      | .vFunc src len body =>
          if len ≠ parameters.length then
            (.error (.mismatchedParameters (objectName ++ "." ++ methodName)), [])
          else invoke interp (.vFunc src len body) parameters
      | _ => (.error (.notAFunction (objectName ++ "." ++ methodName)), [])

end Script

namespace Script

/-- Outcome of the external dynamic import wrapped by one loader
instance.  ES module semantics caches the module per specifier, so the
outcome (the namespace object, or a rejection) is fixed per instance. -/
inductive LoadOutcome where
  | success (resource : JsProps)
  | failure (errorCode : Nat)
  deriving DecidableEq, Repr

/-- Where one logical caller of `loadedScript()` currently stands. -/
inductive CallerStatus where
  | idle
  | done (resource : JsProps)
  | failed (errorCode : Nat)
  | waitingOnEvent
  | waitingOnImport (importId : Nat)
  deriving DecidableEq, Repr

/-- The mutable fields of one `Script` instance that `loadedScript()`
touches, plus instrumentation: `loadCount` counts invocations of the
external dynamic import, `waiters` records the callers that registered
a listener for the `load` event, and `callers` maps each logical caller
to its status.  JavaScript is single-threaded with run-to-completion,
so an execution is a sequence of atomic phases: a caller's synchronous
prefix up to its first suspension (`arrive`), and the settlement
continuation of one import (`settle`). -/
structure LoaderState where
  loadedScript : Option JsProps
  loadingScript : Bool
  waiters : List Nat
  loadCount : Nat
  callers : Nat → CallerStatus

/-- Point update of the caller-status map. -/
def updateCaller (cs : Nat → CallerStatus) (c : Nat) (st : CallerStatus) :
    Nat → CallerStatus :=
  fun c2 => if c2 = c then st else cs c2

/-- A fresh instance: nothing loaded, nothing loading. -/
def initState : LoaderState :=
  { loadedScript := none
    loadingScript := false
    waiters := []
    loadCount := 0
    callers := fun _ => .idle }

/-- One caller entering `loadedScript()` in the `src/load` variant
(`src/load/script.js` and the class in `src/load/helpers.js`), run to
its first suspension: return the cached script when loaded; register a
`load`-event listener and suspend when a load is in flight; otherwise
store a fresh import promise into `#loadingScript` (one external
invocation) and suspend awaiting it.  Fresh imports are numbered by the
pre-increment `loadCount`. -/
def loadedScriptArrive (c : Nat) (s : LoaderState) : LoaderState :=
  match s.loadedScript with
  | some r => { s with callers := updateCaller s.callers c (.done r) }
  | none =>
      if s.loadingScript then
        { s with
            waiters := s.waiters ++ [c]
            callers := updateCaller s.callers c .waitingOnEvent }
      else
        { s with
            loadingScript := true
            loadCount := s.loadCount + 1
            callers := updateCaller s.callers c (.waitingOnImport s.loadCount) }

/-- One caller entering `loadedScript()` in the `src/lib/path` variant:
its already-loading branch only defines the `waitForEvent` helper and
neither calls nor awaits it, so whenever the script is not yet loaded
control falls through and starts a fresh import, overwriting
`#loadingScript`. -/
def loadedScriptArriveLib (c : Nat) (s : LoaderState) : LoaderState :=
  match s.loadedScript with
  | some r => { s with callers := updateCaller s.callers c (.done r) }
  | none =>
      { s with
          loadingScript := true
          loadCount := s.loadCount + 1
          callers := updateCaller s.callers c (.waitingOnImport s.loadCount) }

/-- Settlement of import number `importId` (identical `.then`/`.catch`
chain in all variants).  On success the handler stores the namespace in
`#loadedScript`, emits `load` — waking every registered waiter, each of
which then returns the now-cached script — and resumes the caller
awaiting this import with the script.  On failure the handler nulls
`#loadingScript` and rethrows to the awaiting caller; no event is
emitted, so listeners registered on `load` stay suspended. -/
def loadedScriptSettle (outcome : LoadOutcome) (importId : Nat) (s : LoaderState) :
    LoaderState :=
  match outcome with
  | .success r =>
      { loadedScript := some r
        loadingScript := s.loadingScript
        waiters := []
        loadCount := s.loadCount
        callers := fun c =>
          match s.callers c with
          | .waitingOnEvent => if c ∈ s.waiters then .done r else .waitingOnEvent
          | .waitingOnImport i => if i = importId then .done r else .waitingOnImport i
          | st => st }
  | .failure e =>
      { loadedScript := s.loadedScript
        loadingScript := false
        waiters := s.waiters
        loadCount := s.loadCount
        callers := fun c =>
          match s.callers c with
          | .waitingOnImport i => if i = importId then .failed e else .waitingOnImport i
          | st => st }

/-- One atomic phase of the event loop. -/
inductive LoaderEvent where
  | arrive (caller : Nat)
  | settle (importId : Nat)
  deriving DecidableEq, Repr

/-- Run a schedule of phases against the `src/load` variant. -/
def runLoad (outcome : LoadOutcome) : List LoaderEvent → LoaderState → LoaderState
  | [], s => s
  | .arrive c :: es, s => runLoad outcome es (loadedScriptArrive c s)
  | .settle i :: es, s => runLoad outcome es (loadedScriptSettle outcome i s)

/-- Run a schedule of phases against the `src/lib/path` variant. -/
def runLib (outcome : LoadOutcome) : List LoaderEvent → LoaderState → LoaderState
  | [], s => s
  | .arrive c :: es, s => runLib outcome es (loadedScriptArriveLib c s)
  | .settle i :: es, s => runLib outcome es (loadedScriptSettle outcome i s)

/-- Model of `getObject` at the instance level: the name check precedes the
`await this.loadedScript()`; in the `Loaded` state that await returns
the cached namespace immediately — no suspension, no state change,
no import — and the member check runs on it.  When the script is not
yet loaded the caller would suspend, reported here as `none`. -/
def getObjectStep (s : LoaderState) (objectName : String) :
    Option (Except JsError JsValue) × LoaderState :=
  if objectName = "" then (some (.error .objectNotDefined), s)
  else
    match s.loadedScript with
    | some script => (some (getObject script objectName), s)
    | none => (none, s)

end Script

/-- Whether a value is an object carrying the key among its own
properties (even when the stored value is falsy). -/
def JsValue.hasOwnProperty : JsValue → String → Bool
  | .vObj props, key => props.hasKey key
  | _, _ => false

/-- The loaded namespace of the spec's scenario: an `add` arrow function
with two declared parameters, a `Vector` class whose constructor stores
its first argument in `this.x`, and a plain object with one method. -/
def demoScript : JsProps :=
  .cons "add" (.vFunc "(a, b) => a + b" 2 1)
    (.cons "Vector" (.vFunc "class Vector" 1 0)
      (.cons "objMethod" (.vObj (.cons "method" (.vFunc "() => 1" 0 2) .nil)) .nil))

/-- Call semantics for the scenario: body 0 is the `Vector` constructor
(binds its first received argument to field `x`), body 1 is `add`
(numeric addition of its first two received arguments), body 2 returns
a constant. -/
def demoInterp : Nat → JsList → JsValue
  | 0, args => .vObj (.cons "x" args.headOrUndefined .nil)
  | 1, .cons (.vNum a) (.cons (.vNum b) _) => .vNum (a + b)
  | 2, _ => .vStr "hello"
  | _, _ => .vUndefined

/-- A namespace whose member `a` has a property `b` (an object without a
property `c`) — the spec's nested-walk example. -/
def walkScript : JsProps :=
  .cons "a" (.vObj (.cons "b" (.vObj (.cons "d" (.vNum 1) .nil)) .nil)) .nil

/-- A namespace whose member `a` carries an own property `b` bound to
the falsy value `0`. -/
def falsyScript : JsProps :=
  .cons "a" (.vObj (.cons "b" (.vNum 0) .nil)) .nil

/-- Splitting a nested walk: walking a concatenation first walks the
left part and, on success, continues from its result. -/
theorem nestedWalk_append (objectName : String) (object : JsValue)
    (l1 l2 : List String) :
    Script.nestedWalk objectName object (l1 ++ l2)
      = match Script.nestedWalk objectName object l1 with
        | .ok v => Script.nestedWalk objectName v l2
        | .error e => .error e := by
  induction l1 generalizing object with
  | nil => simp [Script.nestedWalk]
  | cons p l ih =>
      simp only [List.cons_append, Script.nestedWalk]
      by_cases h : truthy (jsGet object p) <;> simp [h, ih]

/-- C8: every value satisfying `isClass` satisfies `isFunction`, and the
inclusion is strict — an ordinary (non-class) function value satisfies
`isFunction` but not `isClass`. -/
theorem isClass_strict_subset_isFunction_C8 :
    (∀ v : JsValue, isClass v = true → isFunction v = true)
    ∧ isFunction (.vFunc "function add(a, b)" 2 3) = true
    ∧ isClass (.vFunc "function add(a, b)" 2 3) = false := by
  refine ⟨fun v h => ?_, by decide, by decide⟩
  cases v <;> simp_all [isClass, isFunction]

/-- Witness for C8, applying the inclusion at the `Vector` class value. -/
theorem isClass_strict_subset_isFunction_C8_witness :
    isFunction (JsValue.vFunc "class Vector" 1 0) = true :=
  isClass_strict_subset_isFunction_C8.1 (JsValue.vFunc "class Vector" 1 0) (by decide)

/-- C10: the nested projection with an empty segment list is exactly
`getObject` on the member name — the same value and the same errors
(empty name, absent or falsy member). -/
theorem nestedWalk_nil_is_getObject_C10 (script : JsProps) (objectName : String) :
    Script.getNestedObjectProperty script objectName []
      = Script.getObject script objectName := by
  unfold Script.getNestedObjectProperty
  cases h : Script.getObject script objectName <;> simp [Script.nestedWalk]

/-- C9: a property present on the resolved object but bound to a falsy
value is treated as absent — both the one-level and the nested
projection fail with the property-not-found error naming it. -/
theorem falsy_property_not_found_C9 (script : JsProps)
    (objectName propertyName : String) (object : JsValue)
    (hobj : Script.getObject script objectName = .ok object)
    (_hpresent : object.hasOwnProperty propertyName = true)
    (hfalsy : truthy (jsGet object propertyName) = false) :
    Script.getObjectProperty script objectName propertyName
      = .error (.propertyNotFound objectName propertyName)
    ∧ Script.getNestedObjectProperty script objectName [propertyName]
      = .error (.propertyNotFound objectName propertyName) := by
  unfold Script.getObjectProperty Script.getNestedObjectProperty
  rw [hobj]
  simp [Script.nestedWalk, hfalsy]

/-- Witness for C9: member `a` of the fixture has own property `b`
holding the falsy number `0`. -/
theorem falsy_property_not_found_C9_witness :
    Script.getObjectProperty falsyScript "a" "b" = .error (.propertyNotFound "a" "b")
    ∧ Script.getNestedObjectProperty falsyScript "a" ["b"]
      = .error (.propertyNotFound "a" "b") :=
  falsy_property_not_found_C9 falsyScript "a" "b" (.vObj (.cons "b" (.vNum 0) .nil))
    (by rfl) (by decide) (by decide)

/-- C4 counterexample: walking `a`,`b`,`c` where `a.b` exists and
`a.b.c` does not produces a property-not-found error naming `a.c` — the
top-level name joined with the failing segment — not the full walked
path `a.b.c` the claim states. -/
theorem nested_error_name_C4_counterexample :
    Script.getNestedObjectProperty walkScript "a" ["b", "c"]
      = .error (.propertyNotFound "a" "c")
    ∧ JsError.message "file:///m.js" (.propertyNotFound "a" "c")
      = "Property not found: file:///m.js, a.c"
    ∧ "Property not found: file:///m.js, a.c"
      ≠ "Property not found: file:///m.js, a.b.c" := by
  refine ⟨rfl, by decide, by decide⟩

/-- C4 amended: the walk stops at the first absent (falsy) segment —
the result is independent of whatever segments follow it — and fails
with a property-not-found error naming the top-level member and that
failing segment only; when every segment is present the final value is
returned. -/
theorem nested_walk_short_circuit_C4 (script : JsProps) (objectName : String)
    (object value : JsValue) (pre rest rest2 : List String) (seg : String)
    (hobj : Script.getObject script objectName = .ok object)
    (hwalk : Script.nestedWalk objectName object pre = .ok value)
    (hseg : truthy (jsGet value seg) = false) :
    Script.getNestedObjectProperty script objectName (pre ++ seg :: rest)
      = .error (.propertyNotFound objectName seg)
    ∧ Script.getNestedObjectProperty script objectName (pre ++ seg :: rest)
      = Script.getNestedObjectProperty script objectName (pre ++ seg :: rest2)
    ∧ (∀ (segs : List String) (v : JsValue),
        Script.nestedWalk objectName object segs = .ok v →
        Script.getNestedObjectProperty script objectName segs = .ok v) := by
  have key : ∀ rest3 : List String,
      Script.getNestedObjectProperty script objectName (pre ++ seg :: rest3)
        = .error (.propertyNotFound objectName seg) := by
    intro rest3
    unfold Script.getNestedObjectProperty
    rw [hobj]
    dsimp only
    rw [nestedWalk_append, hwalk]
    simp [Script.nestedWalk, hseg]
  refine ⟨key rest, (key rest).trans (key rest2).symm, ?_⟩
  intro segs v hv
  unfold Script.getNestedObjectProperty
  rw [hobj]
  dsimp only
  rw [hv]

/-- Witness for the amended C4 at the fixture walk `a`,`b`,`c`. -/
theorem nested_walk_short_circuit_C4_witness :
    Script.getNestedObjectProperty walkScript "a" (["b"] ++ "c" :: [])
      = .error (.propertyNotFound "a" "c") :=
  (nested_walk_short_circuit_C4 walkScript "a"
    (.vObj (.cons "b" (.vObj (.cons "d" (.vNum 1) .nil)) .nil))
    (.vObj (.cons "d" (.vNum 1) .nil)) ["b"] [] ["z"] "c"
    (by rfl) (by rfl) (by decide)).1

/-- C3: `callNew` does not pass the supplied arguments through — the
`Vector` constructor receives the single argument `[7]` (the whole
parameters array), so the constructed instance's `x` field is the array
`[7]`, not `7` as the claim states. -/
theorem callNew_wraps_arguments_C3 :
    Script.callNew demoInterp demoScript "Vector" (.cons (.vNum 7) .nil)
      = (.ok (.vObj (.cons "x" (.vArr (.cons (.vNum 7) .nil)) .nil)),
         [(0, .cons (.vArr (.cons (.vNum 7) .nil)) .nil)])
    ∧ jsGet (.vObj (.cons "x" (.vArr (.cons (.vNum 7) .nil)) .nil)) "x" ≠ .vNum 7
    ∧ (JsList.cons (.vArr (.cons (.vNum 7) .nil)) .nil) ≠ (JsList.cons (.vNum 7) .nil) := by
  refine ⟨rfl, by decide, by decide⟩

/-- C5: in all three safe call forms the declared-parameter-count check
runs after resolution but before invocation — on a mismatch the call
fails with the mismatched-parameters error and the target receives no
call at all; on a match the target is invoked.  `safeCallFunction` and
`safeCallObjectMethod` then pass the arguments through, but
`safeCallNew` hands the constructor the parameters array as one
argument (shown at the `Vector`/`7` input), so the "invoked with the
arguments" part of the claim fails for it. -/
theorem arity_check_precedes_call_C5 (interp : Nat → JsList → JsValue)
    (script : JsProps) (functionName className objectName methodName : String)
    (src csrc msrc : String) (len clen mlen body cbody mbody : Nat)
    (parameters : JsList)
    (hfn : Script.getObject script functionName = .ok (.vFunc src len body))
    (hcls : Script.getClass script className = .ok (.vFunc csrc clen cbody))
    (hm : Script.getObjectProperty script objectName methodName
            = .ok (.vFunc msrc mlen mbody)) :
    (len ≠ parameters.length →
      Script.safeCallFunction interp script functionName parameters
        = (.error (.mismatchedParameters functionName), []))
    ∧ (len = parameters.length →
      Script.safeCallFunction interp script functionName parameters
        = (.ok (interp body parameters), [(body, parameters)]))
    ∧ (clen ≠ parameters.length →
      Script.safeCallNew interp script className parameters
        = (.error (.mismatchedParameters className), []))
    ∧ (clen = parameters.length →
      Script.safeCallNew interp script className parameters
        = (.ok (interp cbody (.cons (.vArr parameters) .nil)),
           [(cbody, .cons (.vArr parameters) .nil)]))
    ∧ (mlen ≠ parameters.length →
      Script.safeCallObjectMethod interp script objectName methodName parameters
        = (.error (.mismatchedParameters (objectName ++ "." ++ methodName)), []))
    ∧ (mlen = parameters.length →
      Script.safeCallObjectMethod interp script objectName methodName parameters
        = (.ok (interp mbody parameters), [(mbody, parameters)]))
    ∧ Script.safeCallNew demoInterp demoScript "Vector" (.cons (.vNum 7) .nil)
        = (.ok (.vObj (.cons "x" (.vArr (.cons (.vNum 7) .nil)) .nil)),
           [(0, .cons (.vArr (.cons (.vNum 7) .nil)) .nil)])
    ∧ (JsList.cons (.vArr (.cons (.vNum 7) .nil)) .nil) ≠ (JsList.cons (.vNum 7) .nil) := by
  have hgf : Script.getFunction script functionName = .ok (.vFunc src len body) := by
    unfold Script.getFunction
    rw [hfn]
    dsimp only
    simp [isFunction]
  refine ⟨?_, ?_, ?_, ?_, ?_, ?_, rfl, by decide⟩
  · intro hne
    unfold Script.safeCallFunction
    rw [hgf]
    dsimp only
    rw [if_pos hne]
  · intro heq
    unfold Script.safeCallFunction
    rw [hgf]
    dsimp only
    rw [if_neg (by simp [heq])]
    rfl
  · intro hne
    unfold Script.safeCallNew
    rw [hcls]
    dsimp only
    rw [if_pos hne]
  · intro heq
    unfold Script.safeCallNew
    rw [hcls]
    dsimp only
    rw [if_neg (by simp [heq])]
    rfl
  · intro hne
    unfold Script.safeCallObjectMethod
    rw [hm]
    dsimp only
    rw [if_pos hne]
  · intro heq
    unfold Script.safeCallObjectMethod
    rw [hm]
    dsimp only
    rw [if_neg (by simp [heq])]
    rfl

/-- Witness for C5: calling `add` (declared arity 2) with one argument
fails with the mismatched-parameters error and `add` is never invoked
(empty call log). -/
theorem arity_check_precedes_call_C5_witness :
    Script.safeCallFunction demoInterp demoScript "add" (.cons (.vNum 1) .nil)
      = (.error (.mismatchedParameters "add"), []) :=
  (arity_check_precedes_call_C5 demoInterp demoScript "add" "Vector" "objMethod"
    "method" "(a, b) => a + b" "class Vector" "() => 1" 2 1 0 1 0 2
    (.cons (.vNum 1) .nil) (by rfl) (by rfl) (by rfl)).1 (by decide)

namespace Script

/-- A caller's arrival never changes the cached loaded script. -/
theorem loadedScriptArrive_loadedScript (c : Nat) (s : LoaderState) :
    (loadedScriptArrive c s).loadedScript = s.loadedScript := by
  unfold loadedScriptArrive
  cases h : s.loadedScript <;> dsimp only
  split <;> rfl

/-- In the `src/lib/path` variant too, an arrival never changes the
cached loaded script. -/
theorem loadedScriptArriveLib_loadedScript (c : Nat) (s : LoaderState) :
    (loadedScriptArriveLib c s).loadedScript = s.loadedScript := by
  unfold loadedScriptArriveLib
  cases h : s.loadedScript <;> dsimp only

/-- A failed settlement never changes the cached loaded script. -/
theorem settle_failure_loadedScript (e i : Nat) (s : LoaderState) :
    (loadedScriptSettle (.failure e) i s).loadedScript = s.loadedScript := rfl

/-- A successful settlement stores the imported namespace. -/
theorem settle_success_loadedScript (r : JsProps) (i : Nat) (s : LoaderState) :
    (loadedScriptSettle (.success r) i s).loadedScript = some r := rfl

/-- Invariant I2: once the cached loaded script is set, no schedule of
further arrivals and settlements changes it (the fixed import outcome
can only re-store the same namespace). -/
theorem runLoad_preserves_loaded (o : LoadOutcome) (events : List LoaderEvent)
    (s : LoaderState) (r : JsProps)
    (hs : s.loadedScript = some r)
    (ho : ∀ r2, o = .success r2 → r2 = r) :
    (runLoad o events s).loadedScript = some r := by
  induction events generalizing s with
  | nil => simpa [runLoad] using hs
  | cons ev rest ih =>
      cases ev with
      | arrive c =>
          simp only [runLoad]
          exact ih _ (by rw [loadedScriptArrive_loadedScript]; exact hs)
      | settle i =>
          simp only [runLoad]
          cases o with
          | success r2 =>
              have hr : r2 = r := ho r2 rfl
              subst hr
              exact ih _ (settle_success_loadedScript r2 i s)
          | failure e =>
              exact ih _ (by rw [settle_failure_loadedScript]; exact hs)

/-- Running a concatenated schedule runs the two parts in sequence. -/
theorem runLoad_append (o : LoadOutcome) (l1 l2 : List LoaderEvent) (s : LoaderState) :
    runLoad o (l1 ++ l2) s = runLoad o l2 (runLoad o l1 s) := by
  induction l1 generalizing s with
  | nil => rfl
  | cons ev rest ih => cases ev <;> simp only [List.cons_append, runLoad] <;> exact ih _

/-- While a load is in flight, a batch of arriving callers only grows
the waiter list: the cached script stays unset, the pending flag stays
set, no further import is started, and every arrived caller is
suspended on the `load` event. -/
theorem runLoad_arrivals (o : LoadOutcome) (l : List Nat) (s : LoaderState)
    (h1 : s.loadedScript = none) (h2 : s.loadingScript = true) :
    (runLoad o (l.map .arrive) s).loadedScript = none
    ∧ (runLoad o (l.map .arrive) s).loadingScript = true
    ∧ (runLoad o (l.map .arrive) s).loadCount = s.loadCount
    ∧ (runLoad o (l.map .arrive) s).waiters = s.waiters ++ l
    ∧ ∀ c : Nat, (runLoad o (l.map .arrive) s).callers c
        = if c ∈ l then .waitingOnEvent else s.callers c := by
  induction l generalizing s with
  | nil =>
      refine ⟨h1, h2, rfl, by simp [runLoad], ?_⟩
      intro c
      simp [runLoad]
  | cons a l ih =>
      have harr : loadedScriptArrive a s
          = { s with waiters := s.waiters ++ [a],
                     callers := updateCaller s.callers a .waitingOnEvent } := by
        unfold loadedScriptArrive
        rw [h1]
        dsimp only
        rw [if_pos h2]
      simp only [List.map_cons, runLoad, harr]
      obtain ⟨g1, g2, g3, g4, g5⟩ :=
        ih { s with waiters := s.waiters ++ [a],
                    callers := updateCaller s.callers a .waitingOnEvent } h1 h2
      refine ⟨g1, g2, g3, ?_, ?_⟩
      · rw [g4]
        simp
      · intro c
        rw [g5 c]
        unfold updateCaller
        by_cases hcl : c ∈ l
        · simp [hcl]
        · by_cases hca : c = a <;> simp [hcl, hca]

end Script

/-- C1: the claim fails on the `src/lib/path` variant of
`loadedScript`: when a second caller arrives while the first import is
in flight, the branch that should wait falls through and the
external import is invoked a second time, with two loads in flight
— against the required exactly-one invocation and at-most-one in
flight.  The `src/load` variant does satisfy single-flight: for any
number of callers arriving before settlement, exactly one import is
invoked and every caller ends with the identical loaded namespace. -/
theorem single_flight_C1 :
    (∀ o : Script.LoadOutcome,
      (Script.runLib o [.arrive 0, .arrive 1] Script.initState).loadCount = 2
      ∧ (Script.runLib o [.arrive 0, .arrive 1] Script.initState).callers 0
          = .waitingOnImport 0
      ∧ (Script.runLib o [.arrive 0, .arrive 1] Script.initState).callers 1
          = .waitingOnImport 1)
    ∧ (∀ (N : Nat) (r : JsProps) (c : Nat),
      (Script.runLoad (.success r)
          ((List.range (N + 1)).map .arrive ++ [.settle 0])
          Script.initState).loadCount = 1
      ∧ (Script.runLoad (.success r)
          ((List.range (N + 1)).map .arrive ++ [.settle 0])
          Script.initState).callers c
          = if c < N + 1 then .done r else .idle) := by
  constructor
  · intro o
    exact ⟨rfl, rfl, rfl⟩
  · intro N r c
    have hrw : Script.runLoad (.success r)
        ((List.range (N + 1)).map .arrive ++ [.settle 0]) Script.initState
        = Script.loadedScriptSettle (.success r) 0
            (Script.runLoad (.success r)
              ((List.map Nat.succ (List.range N)).map .arrive)
              (Script.loadedScriptArrive 0 Script.initState)) := by
      rw [List.range_succ_eq_map, List.map_cons, List.cons_append]
      simp only [Script.runLoad]
      rw [Script.runLoad_append]
      simp only [Script.runLoad]
    obtain ⟨g1, g2, g3, g4, g5⟩ :=
      Script.runLoad_arrivals (.success r) (List.map Nat.succ (List.range N))
        (Script.loadedScriptArrive 0 Script.initState) rfl rfl
    rw [hrw]
    have hset : ∀ x : Script.LoaderState,
        (Script.loadedScriptSettle (.success r) 0 x).callers c
          = match x.callers c with
            | .waitingOnEvent => if c ∈ x.waiters then .done r else .waitingOnEvent
            | .waitingOnImport i => if i = 0 then .done r else .waitingOnImport i
            | st => st := fun _ => rfl
    have hcount : ∀ x : Script.LoaderState,
        (Script.loadedScriptSettle (.success r) 0 x).loadCount = x.loadCount :=
      fun _ => rfl
    constructor
    · rw [hcount, g3]
      rfl
    · rw [hset, g5 c, g4]
      have hc1 : (Script.loadedScriptArrive 0 Script.initState).callers c
          = if c = 0 then .waitingOnImport 0 else .idle := rfl
      have hw1 : (Script.loadedScriptArrive 0 Script.initState).waiters = [] := rfl
      rw [hc1, hw1]
      by_cases hc0 : c = 0
      · subst hc0
        have h0l : (0 : Nat) ∉ List.map Nat.succ (List.range N) := by simp
        simp [h0l]
      · by_cases hcl : c ∈ List.map Nat.succ (List.range N)
        · have hlt : c < N + 1 := by
            obtain ⟨k, hk, hkc⟩ := List.mem_map.mp hcl
            rw [List.mem_range] at hk
            omega
          simp [hcl, hlt]
        · have hge : ¬ c < N + 1 := by
            intro hlt
            exact hcl (List.mem_map.mpr
              ⟨c - 1, List.mem_range.mpr (by omega), by omega⟩)
          simp [hcl, hc0, hge]

/-- C2: the claim fails in the code: when the in-flight load fails, the
catch handler clears the pending load and rethrows to the initiating
caller, but emits no event — so a caller that suspended on the `load`
event before settlement is never woken and observes no outcome at all,
while the initiator receives the failure. -/
theorem failure_waiter_never_woken_C2 :
    (Script.runLoad (.failure 7) [.arrive 0, .arrive 1, .settle 0]
        Script.initState).callers 0 = .failed 7
    ∧ (Script.runLoad (.failure 7) [.arrive 0, .arrive 1, .settle 0]
        Script.initState).callers 1 = .waitingOnEvent
    ∧ (Script.runLoad (.failure 7) [.arrive 0, .arrive 1, .settle 0]
        Script.initState).callers 1 ≠ .failed 7
    ∧ (Script.runLoad (.failure 7) [.arrive 0, .arrive 1, .settle 0]
        Script.initState).waiters = [1] := by
  refine ⟨rfl, rfl, by decide, rfl⟩

/-- C6: a failed load clears the instance state (no cached script, no
pending load) after exactly one import; the next caller then starts
exactly one new import, and a further concurrent caller does not
start another; and once the script is loaded an arriving caller does
not trigger any import and is handed the cached namespace. -/
theorem failure_not_sticky_C6 (e : Nat) (c : Nat) (r : JsProps) (s : Script.LoaderState) :
    ((Script.runLoad (.failure e) [.arrive 0, .settle 0]
        Script.initState).loadedScript = none
      ∧ (Script.runLoad (.failure e) [.arrive 0, .settle 0]
          Script.initState).loadingScript = false
      ∧ (Script.runLoad (.failure e) [.arrive 0, .settle 0]
          Script.initState).loadCount = 1
      ∧ (Script.loadedScriptArrive 1 (Script.runLoad (.failure e) [.arrive 0, .settle 0]
          Script.initState)).loadCount = 2
      ∧ (Script.loadedScriptArrive 1 (Script.runLoad (.failure e) [.arrive 0, .settle 0]
          Script.initState)).loadingScript = true
      ∧ (Script.loadedScriptArrive 2 (Script.loadedScriptArrive 1
          (Script.runLoad (.failure e) [.arrive 0, .settle 0]
            Script.initState))).loadCount = 2)
    ∧ (s.loadedScript = some r →
        (Script.loadedScriptArrive c s).loadCount = s.loadCount
        ∧ (Script.loadedScriptArrive c s).loadedScript = some r
        ∧ (Script.loadedScriptArrive c s).callers c = .done r) := by
  constructor
  · exact ⟨rfl, rfl, rfl, rfl, rfl, rfl⟩
  · intro h
    unfold Script.loadedScriptArrive
    rw [h]
    dsimp only
    exact ⟨rfl, rfl, by simp [Script.updateCaller]⟩

/-- Witness for C6 at a loaded instance: an arrival on a state holding
the demo namespace leaves the import count unchanged. -/
theorem failure_not_sticky_C6_witness :
    (Script.loadedScriptArrive 5 (Script.loadedScriptSettle (.success demoScript) 0
        (Script.loadedScriptArrive 0 Script.initState))).loadCount
      = (Script.loadedScriptSettle (.success demoScript) 0
          (Script.loadedScriptArrive 0 Script.initState)).loadCount :=
  ((failure_not_sticky_C6 0 5 demoScript
    (Script.loadedScriptSettle (.success demoScript) 0
      (Script.loadedScriptArrive 0 Script.initState))).2 (by rfl)).1

/-- C7: with the script loaded, resolving a member suspends nothing and
changes nothing — the instance state (hence the import count) is
untouched, a second identical call returns the identical result, and
the cached namespace reference survives every further schedule of
arrivals and settlements of the instance's fixed import outcome. -/
theorem idempotent_resolution_C7 (s : Script.LoaderState) (script : JsProps)
    (objectName : String) (h : s.loadedScript = some script) :
    (Script.getObjectStep s objectName).2 = s
    ∧ (Script.getObjectStep s objectName).1 = some (Script.getObject script objectName)
    ∧ Script.getObjectStep ((Script.getObjectStep s objectName).2) objectName
        = Script.getObjectStep s objectName
    ∧ ((Script.getObjectStep s objectName).2).loadCount = s.loadCount
    ∧ (∀ (o : Script.LoadOutcome) (events : List Script.LoaderEvent),
        (∀ r2, o = .success r2 → r2 = script) →
        (Script.runLoad o events s).loadedScript = some script) := by
  have hstep : Script.getObjectStep s objectName
      = (some (Script.getObject script objectName), s) := by
    unfold Script.getObjectStep
    by_cases hn : objectName = ""
    · rw [if_pos hn]
      unfold Script.getObject
      rw [if_pos hn]
    · rw [if_neg hn, h]
  refine ⟨by rw [hstep], by rw [hstep], by simp [hstep], by rw [hstep], ?_⟩
  intro o events ho
  exact Script.runLoad_preserves_loaded o events s script h ho

/-- Witness for C7 at a freshly loaded instance holding the walk
fixture namespace. -/
theorem idempotent_resolution_C7_witness :
    (Script.getObjectStep (Script.loadedScriptSettle (.success walkScript) 0
        (Script.loadedScriptArrive 0 Script.initState)) "a").1
      = some (Script.getObject walkScript "a") :=
  (idempotent_resolution_C7 (Script.loadedScriptSettle (.success walkScript) 0
      (Script.loadedScriptArrive 0 Script.initState)) walkScript "a" (by rfl)).2.1
